import Mathlib

/-!
Verification development for the PRODUTO-SHOPPE generation pipeline.

The definitions below are shallow embeddings of the TypeScript source:
  * a JSON value model and a parser standing for `JSON.parse`
    (numeric literals are modelled as rationals, string escapes cover the
    JSON escape set including \u; the JS whitespace class is modelled by
    the four ASCII whitespace characters),
  * the fenced-code-block extraction regex and the parse/normalize logic of
    `generateProductContent` (services variant with retry, "part_007"),
  * the retry combinator `withRetry`,
  * the model-fallback loop of `generateProductContent` ("part_011"),
  * the image resize preprocessing `resizeImage`,
  * the three `generateProductImages` variants (map-aggregation, filter
    aggregation, and the base-image-gated variant),
  * the `App.handleGenerate` orchestration (both the parallel and the
    sequential variant).
External calls (model endpoints, timers) are represented by explicit
oracles passed as arguments, so each embedded function is pure and
executable.
-/

namespace Spec2Proof

/-- JSON values as produced by `JSON.parse`.  Object fields keep first-key
positions; duplicate keys overwrite values, as in JavaScript. -/
inductive Json where
  | null : Json
  | bool (b : Bool) : Json
  | num (q : Rat) : Json
  | str (s : String) : Json
  | arr (elems : List Json) : Json
  | obj (fields : List (String × Json)) : Json
  deriving Repr

/-- Characters treated as whitespace by the JSON grammar (and, for the
ASCII inputs we consider, by the JS `\s` class and `String.trim`). -/
def isJsonWs (c : Char) : Bool :=
  c = ' ' || c = '\t' || c = '\n' || c = '\r'

def skipWs : List Char → List Char
  | [] => []
  | c :: cs => if isJsonWs c then skipWs cs else c :: cs

/-- The `{` character (written via its code point). -/
def lbrace : Char := Char.ofNat 123

/-- The `}` character (written via its code point). -/
def rbrace : Char := Char.ofNat 125

/-- The backtick character (written via its code point). -/
def backtick : Char := Char.ofNat 96

def hexDigitVal (c : Char) : Option Nat :=
  if '0' ≤ c ∧ c ≤ '9' then some (c.toNat - 48)
  else if 'a' ≤ c ∧ c ≤ 'f' then some (c.toNat - 87)
  else if 'A' ≤ c ∧ c ≤ 'F' then some (c.toNat - 55)
  else none

def escChar (c : Char) : Option Char :=
  if c = '"' then some '"'
  else if c = '\\' then some '\\'
  else if c = '/' then some '/'
  else if c = 'b' then some (Char.ofNat 8)
  else if c = 'f' then some (Char.ofNat 12)
  else if c = 'n' then some '\n'
  else if c = 'r' then some '\r'
  else if c = 't' then some '\t'
  else none

/-- Body of a JSON string literal (the opening quote already consumed);
returns the decoded characters and the remainder after the closing quote. -/
def parseStrChars : List Char → Option (List Char × List Char)
  | [] => none
  | '\\' :: 'u' :: h1 :: h2 :: h3 :: h4 :: rest => do
    let v1 ← hexDigitVal h1
    let v2 ← hexDigitVal h2
    let v3 ← hexDigitVal h3
    let v4 ← hexDigitVal h4
    let (tail, r) ← parseStrChars rest
    some (Char.ofNat (((v1 * 16 + v2) * 16 + v3) * 16 + v4) :: tail, r)
  | '\\' :: e :: rest => do
    let ec ← escChar e
    let (tail, r) ← parseStrChars rest
    some (ec :: tail, r)
  | c :: rest =>
    if c = '"' then some ([], rest)
    else (parseStrChars rest).map (fun p => (c :: p.1, p.2))

def digitsToNat (ds : List Char) : Nat :=
  ds.foldl (fun a c => a * 10 + (c.toNat - 48)) 0

def applyExp (q : Rat) (e : Int) : Rat :=
  if 0 ≤ e then q * (10 : Rat) ^ e.toNat else q / (10 : Rat) ^ (-e).toNat

/-- A JSON numeric literal (decimal point and exponent supported). -/
def parseNumber (cs : List Char) : Option (Json × List Char) :=
  let signSplit : Bool × List Char :=
    match cs with
    | c :: rest => if c = '-' then (true, rest) else (false, cs)
    | [] => (false, cs)
  let neg := signSplit.1
  let cs1 := signSplit.2
  let ip := cs1.takeWhile Char.isDigit
  let cs2 := cs1.dropWhile Char.isDigit
  if ip.length = 0 then none
  else
    let intPart : Rat := (digitsToNat ip : Nat)
    let fracSplit : Bool × Rat × List Char :=
      match cs2 with
      | c :: rest =>
        if c = '.' then
          let fd := rest.takeWhile Char.isDigit
          if fd.length = 0 then (false, 0, cs2)
          else (true, (digitsToNat fd : Rat) / (10 : Rat) ^ fd.length,
                rest.dropWhile Char.isDigit)
        else (true, 0, cs2)
      | [] => (true, 0, cs2)
    if fracSplit.1 = false then none
    else
      let cs3 := fracSplit.2.2
      let expSplit : Bool × Int × List Char :=
        match cs3 with
        | c :: rest =>
          if c = 'e' ∨ c = 'E' then
            let signRest : Int × List Char :=
              match rest with
              | c2 :: r2 =>
                if c2 = '+' then (1, r2)
                else if c2 = '-' then (-1, r2)
                else (1, rest)
              | [] => (1, rest)
            let ed := signRest.2.takeWhile Char.isDigit
            if ed.length = 0 then (false, 0, cs3)
            else (true, signRest.1 * (digitsToNat ed : Int),
                  signRest.2.dropWhile Char.isDigit)
          else (true, 0, cs3)
        | [] => (true, 0, cs3)
      if expSplit.1 = false then none
      else
        let mag := applyExp (intPart + fracSplit.2.1) expSplit.2.1
        some (Json.num (if neg then -mag else mag), expSplit.2.2)

/-- Insert a field, overwriting the value of an existing key in place
(JavaScript object semantics for duplicate keys). -/
def insertField : List (String × Json) → String → Json → List (String × Json)
  | [], k, v => [(k, v)]
  | (k', v') :: rest, k, v =>
    if k' = k then (k', v) :: rest else (k', v') :: insertField rest k v

def lookupField : List (String × Json) → String → Option Json
  | [], _ => none
  | (k', v') :: rest, k => if k' = k then some v' else lookupField rest k

mutual

def parseVal : Nat → List Char → Option (Json × List Char)
  | 0, _ => none
  | Nat.succ fuel, cs =>
    match skipWs cs with
    | [] => none
    | 'n' :: 'u' :: 'l' :: 'l' :: rest => some (Json.null, rest)
    | 't' :: 'r' :: 'u' :: 'e' :: rest => some (Json.bool true, rest)
    | 'f' :: 'a' :: 'l' :: 's' :: 'e' :: rest => some (Json.bool false, rest)
    | c :: rest =>
      if c = '"' then (parseStrChars rest).map (fun p => (Json.str (String.mk p.1), p.2))
      else if c = lbrace then parseObjBody fuel rest
      else if c = '[' then parseArrBody fuel rest
      else if c = '-' || c.isDigit then parseNumber (c :: rest)
      else none

def parseObjBody : Nat → List Char → Option (Json × List Char)
  | 0, _ => none
  | Nat.succ fuel, cs =>
    match skipWs cs with
    | [] => none
    | c :: rest =>
      if c = rbrace then some (Json.obj [], rest)
      else do
        let (m, r1) ← parseMember fuel (c :: rest)
        let (ms, r2) ← parseObjTail fuel r1
        some (Json.obj ((m :: ms).foldl (fun acc p => insertField acc p.1 p.2) []), r2)

def parseObjTail : Nat → List Char → Option (List (String × Json) × List Char)
  | 0, _ => none
  | Nat.succ fuel, cs =>
    match skipWs cs with
    | [] => none
    | c :: rest =>
      if c = rbrace then some ([], rest)
      else if c = ',' then do
        let (m, r1) ← parseMember fuel rest
        let (ms, r2) ← parseObjTail fuel r1
        some (m :: ms, r2)
      else none

def parseMember : Nat → List Char → Option ((String × Json) × List Char)
  | 0, _ => none
  | Nat.succ fuel, cs =>
    match skipWs cs with
    | [] => none
    | c :: rest =>
      if c = '"' then do
        let (ks, r1) ← parseStrChars rest
        match skipWs r1 with
        | ':' :: r2 => do
          let (v, r3) ← parseVal fuel r2
          some ((String.mk ks, v), r3)
        | _ => none
      else none

def parseArrBody : Nat → List Char → Option (Json × List Char)
  | 0, _ => none
  | Nat.succ fuel, cs =>
    match skipWs cs with
    | [] => none
    | c :: rest =>
      if c = ']' then some (Json.arr [], rest)
      else do
        let (v, r1) ← parseVal fuel (c :: rest)
        let (vs, r2) ← parseArrTail fuel r1
        some (Json.arr (v :: vs), r2)

def parseArrTail : Nat → List Char → Option (List Json × List Char)
  | 0, _ => none
  | Nat.succ fuel, cs =>
    match skipWs cs with
    | [] => none
    | c :: rest =>
      if c = ']' then some ([], rest)
      else if c = ',' then do
        let (v, r1) ← parseVal fuel rest
        let (vs, r2) ← parseArrTail fuel r1
        some (v :: vs, r2)
      else none

end

/-- Model of `JSON.parse`: parse one value, then require only trailing
whitespace. -/
def jsonParse (s : String) : Option Json :=
  match parseVal (4 * s.data.length + 16) s.data with
  | some (j, rest) => if skipWs rest = [] then some j else none
  | none => none

/-- Model of `String.prototype.trim` over the ASCII whitespace class. -/
def trimChars (cs : List Char) : List Char :=
  ((cs.dropWhile isJsonWs).reverse.dropWhile isJsonWs).reverse

def jsTrim (s : String) : String := String.mk (trimChars s.data)

/-- True iff the list starts with three backticks. -/
def fenceAt (cs : List Char) : Bool :=
  match cs with
  | a :: b :: c :: _ => a = backtick && b = backtick && c = backtick
  | _ => false

/-- Scan to the first closing triple backtick, returning the segment before
it (the lazy `([\s\S]*?)` of the regex, followed by the closing delimiter). -/
def splitAtClose : List Char → Option (List Char)
  | [] => none
  | c :: rest =>
    if fenceAt (c :: rest) then some []
    else (splitAtClose rest).map (fun seg => c :: seg)

/-- The optional `json` language tag directly after the opening fence
(the greedy `(?:json)?` of the regex). -/
def dropJsonTag : List Char → List Char
  | 'j' :: 's' :: 'o' :: 'n' :: rest => rest
  | cs => cs

/-- Leftmost match of the fenced-block regex: find an opening ``` with a
later closing ```; the capture is the segment in between (language tag
stripped).  If an opening fence never closes, scanning resumes one
character later, as the regex engine does. -/
def findFence (cs : List Char) : Option (List Char) :=
  match cs with
  | [] => none
  | _ :: rest =>
    if fenceAt cs then
      match splitAtClose (dropJsonTag (rest.drop 2)) with
      | some seg => some seg
      | none => findFence rest
    else findFence rest

/-- The string handed to `JSON.parse` by `generateProductContent` of part_007:
the trimmed response text, replaced by the (trimmed) capture of the fenced
block when the regex matches with a non-empty capture (`jsonMatch[1]` is
falsy when the capture is the empty string, so the full text is kept). -/
def extractJsonString (responseText : String) : String :=
  let trimmed := jsTrim responseText
  match findFence trimmed.data with
  | some seg =>
    let cap := trimChars seg
    if cap = [] then trimmed else String.mk cap
  | none => trimmed

/-- JavaScript truthiness of a parsed JSON value. -/
def jsTruthy : Json → Bool
  | Json.null => false
  | Json.bool b => b
  | Json.num q => if q = 0 then false else true
  | Json.str s => if s = "" then false else true
  | Json.arr _ => true
  | Json.obj _ => true

/-- `a || d` where `a` is a possibly-absent (undefined) property. -/
def jsOrDefault (v : Option Json) (d : Json) : Json :=
  match v with
  | some x => if jsTruthy x then x else d
  | none => d

/-- `o.k = o.k || d` on the field list of an object. -/
def setJsDefault (fields : List (String × Json)) (k : String) (d : Json) :
    List (String × Json) :=
  insertField fields k (jsOrDefault (lookupField fields k) d)

/-- The post-parse statements `parsedJson.keywords = parsedJson.keywords || [];
parsedJson.variations = parsedJson.variations || [];` of part_007.  On an
object they set the two defaults; on an array the property assignments
succeed (arrays are objects) and the array is returned unchanged; on a
primitive or null the assignment throws a TypeError in strict mode, which
the surrounding catch turns into the invalid-format error (`none` here). -/
def normalizeParsedContent : Json → Option Json
  | Json.obj fields =>
    some (Json.obj (setJsDefault (setJsDefault fields "keywords" (Json.arr []))
      "variations" (Json.arr [])))
  | Json.arr xs => some (Json.arr xs)
  | _ => none

def invalidFormatMsg : String :=
  "A IA retornou uma resposta em formato inválido. Tente novamente com um prompt ou imagem diferente."

/-- The response-parsing tail of `generateProductContent` in part_007: locate
the JSON text (bare or fenced), `JSON.parse` it, apply the keyword/variation
defaults; any failure inside the inner try is surfaced as the
invalid-format error. -/
def parseProductContentResponse (responseText : String) : Except String Json :=
  let jsonString := extractJsonString responseText
  match jsonParse jsonString with
  | none => Except.error invalidFormatMsg
  | some j =>
    match normalizeParsedContent j with
    | some j' => Except.ok j'
    | none => Except.error invalidFormatMsg

/-! ## Retry combinator (part_007 `withRetry`) -/

/-- Loop body of `withRetry`: `remaining` counts the attempts left
(`retries - i`).  The first result component is the value or the finally
thrown error (`none` models the `undefined` thrown when the loop never
ran); the second lists the `setTimeout` delays actually awaited, in
order.  A delay of `delay * 2 ^ i` is awaited after a failed attempt `i`
only when `i < retries - 1`. -/
def withRetryGo (attempt : Nat → Except String α) (retries delay : Nat) :
    Nat → Nat → Option String → Except (Option String) α × List Nat
  | 0, _, lastError => (Except.error lastError, [])
  | Nat.succ rem, i, _ =>
    match attempt i with
    | Except.ok a => (Except.ok a, [])
    | Except.error e =>
      let r := withRetryGo attempt retries delay rem (i + 1) (some e)
      if i < retries - 1 then (r.1, delay * 2 ^ i :: r.2) else r

/-- `withRetry(fn, retries, delay)` from part_007: the `attempt` oracle gives
the outcome of the `i`-th execution of `fn`. -/
def withRetry (attempt : Nat → Except String α) (retries delay : Nat) :
    Except (Option String) α × List Nat :=
  withRetryGo attempt retries delay retries 0 none

/-! ## Model fallback (part_011 `generateProductContent`) -/

def modelsToTry : List String := ["gemini-2.5-pro", "gemini-2.5-flash"]

/-- Model of the `SyntaxError` message produced by a failing `JSON.parse`
inside the fallback loop (its exact wording is environment-specific). -/
def jsonSyntaxErrorMsg : String := "Unexpected token in JSON"

/-- The aggregated failure raised after the fallback loop is exhausted;
`lastErr = none` models `lastError` still being `null`, which interpolates
as the text `null` — in the source `lastError?.message` of a `null`
`lastError` interpolates as `undefined`. -/
def contentFallbackAggMsg (n : Nat) (lastErr : Option String) : String :=
  "A geração de conteúdo falhou após tentar " ++ toString n ++
    " modelos. Por favor, tente novamente. (Erro: " ++
    (match lastErr with | some m => m | none => "undefined") ++ ")"

/-- The `for (const model of modelsToTry)` loop: each iteration calls the
model (`oracle`), trims and `JSON.parse`s the response text, returns the
parsed data on success, and otherwise records the failure and moves on.
The second component lists the models actually attempted, in order. -/
def fallbackGo (oracle : String → Except String String) :
    List String → Option String → Except String Json × List String
  | [], lastError =>
    (Except.error (contentFallbackAggMsg modelsToTry.length lastError), [])
  | m :: rest, _ =>
    match oracle m with
    | Except.error e =>
      let r := fallbackGo oracle rest (some e)
      (r.1, m :: r.2)
    | Except.ok text =>
      match jsonParse (jsTrim text) with
      | some j => (Except.ok j, [m])
      | none =>
        let r := fallbackGo oracle rest (some jsonSyntaxErrorMsg)
        (r.1, m :: r.2)

/-- `generateProductContent` from part_011, abstracted over the transport:
`oracle model` is the outcome of `ai.models.generateContent` for that
model identifier (`.ok` carries the raw response text). -/
def generateProductContentFallback (oracle : String → Except String String) :
    Except String Json × List String :=
  fallbackGo oracle modelsToTry none

/-! ## Image preprocessing (part_003 `resizeImage`) -/

/-- A decoded image file: logical name, MIME type and pixel dimensions. -/
structure ImageFile where
  name : String
  mime : String
  width : Nat
  height : Nat
  deriving Repr, DecidableEq

inductive ResizeResult where
  | unchanged (f : ImageFile) : ResizeResult
  | reencoded (f : ImageFile) (quality : Rat) : ResizeResult
  deriving Repr, DecidableEq

/-- Assigning a non-negative number to `canvas.width` / `canvas.height`
truncates the fractional part. -/
def ratFloorNat (q : Rat) : Nat := (Int.floor q).toNat

/-- `resizeImage(file, maxDimension)` from part_003: if both dimensions are
within the bound the original file is resolved unchanged; otherwise the
longer edge is set to `maxDimension`, the other scaled proportionally,
and the canvas is re-encoded as `image/jpeg` at quality 0.9 under the
original file name. -/
def resizeImage (file : ImageFile) (maxDimension : Nat) : ResizeResult :=
  if file.width ≤ maxDimension ∧ file.height ≤ maxDimension then
    ResizeResult.unchanged file
  else
    let newWidth : Nat :=
      if file.width > file.height then maxDimension
      else ratFloorNat (((file.width * maxDimension : Nat) : Rat) / (file.height : Rat))
    let newHeight : Nat :=
      if file.width > file.height then
        ratFloorNat (((file.height * maxDimension : Nat) : Rat) / (file.width : Rat))
      else maxDimension
    ResizeResult.reencoded
      { name := file.name, mime := "image/jpeg", width := newWidth, height := newHeight }
      ((9 : Rat) / 10)

/-! ## Image generation fan-out variants -/

/-- The slice of `ProductContent` the image pipeline reads.  An absent
slogan is represented by the empty string (both are falsy in JS). -/
structure ProductContentT where
  name : String
  promotionalSlogan : String
  deriving Repr, DecidableEq

structure GeneratedImageSet where
  withText : List String
  clean : List String
  modern : List String
  deriving Repr, DecidableEq

/-- `img || ''` on a `string | null` value. -/
def strOrEmpty (o : Option String) : String :=
  match o with
  | some s => s
  | none => ""

/-- `.filter((img): img is string => !!img)` drops both null and the empty string. -/
def truthyFilter (o : Option String) : Option String :=
  match o with
  | some s => if s = "" then none else some s
  | none => none

/-- `s || d` on strings. -/
def jsStrOr (s d : String) : String := if s = "" then d else s

/-- The `prompts.withText` list of the map-aggregation
`generateProductImages` (services/geminiService.ts, Imagen variant). -/
def gsWithTextPrompts (productName slogan : String) : List String :=
  [ "Professional marketing banner for \"" ++ productName ++ "\". Featuring the slogan \"" ++ slogan ++ "\" in a bold, eye-catching design. Clean background, studio lighting. Photorealistic, 8k."
  , "Advertisement for \"" ++ productName ++ "\". The slogan \"" ++ slogan ++ "\" is elegantly integrated into the composition. Luxurious and modern feel."
  , "Social media post for \"" ++ productName ++ "\". The text \"" ++ slogan ++ "\" is overlaid with stylish typography. Vibrant colors."
  , "E-commerce hero image for \"" ++ productName ++ "\", with the promotional text \"" ++ slogan ++ "\" clearly visible. High resolution."
  , "A flat lay composition featuring \"" ++ productName ++ "\" with the slogan \"" ++ slogan ++ "\" written in a beautiful script font." ]

def gsCleanPrompts (productName : String) : List String :=
  [ "High-quality e-commerce photo of \"" ++ productName ++ "\" on a pure white background (#FFFFFF) with a subtle, soft shadow. Professional studio lighting, hyper-realistic, 8k."
  , "A clean shot of \"" ++ productName ++ "\" on a light gray gradient background. Perfect for a product catalog. Photorealistic."
  , "\"" ++ productName ++ "\" isolated on a minimalist background. Focus on product details and texture. Macro shot, high detail."
  , "Symmetrical, centered shot of \"" ++ productName ++ "\" on a solid, neutral color background. Professional e-commerce photography."
  , "Floating \"" ++ productName ++ "\" on a clean, seamless white background with perfect, even lighting. Minimalist and professional." ]

def gsModernPrompts (productName : String) : List String :=
  [ "Lifestyle shot of \"" ++ productName ++ "\" being used in a modern, stylish real-life environment. Cinematic lighting, shallow depth of field."
  , "A dynamic action shot of \"" ++ productName ++ "\". Use motion blur and interesting angles to create a sense of excitement and energy."
  , "A visually striking, conceptual image of \"" ++ productName ++ "\" surrounded by abstract geometric shapes and soft neon lighting."
  , "\"" ++ productName ++ "\" placed in a realistic, relevant outdoor setting (e.g., a park for shoes, a beach for sunglasses). Beautiful natural lighting."
  , "\"" ++ productName ++ "\" in a conceptual, artistic setting. Use creative elements like water ripples, smoke, or light trails to create a premium feel." ]

/-- The map-aggregation `generateProductImages(content, originalImage)`
(services/geminiService.ts, Imagen variant): gated on a usable content
name, then fifteen independent text-to-image calls whose per-slot failures
(null) are mapped to empty-string placeholders.  `oracle` stands for
`generateSingleImage` (returns the data URL or `null`). -/
def generateProductImagesMapVariant (content : ProductContentT)
    (oracle : String → Option String) : GeneratedImageSet :=
  if content.name = "" then { withText := [], clean := [], modern := [] }
  else
    let productName := content.name
    let slogan := jsStrOr content.promotionalSlogan "Oferta Especial"
    { withText := (gsWithTextPrompts productName slogan).map (fun p => strOrEmpty (oracle p))
    , clean := (gsCleanPrompts productName).map (fun p => strOrEmpty (oracle p))
    , modern := (gsModernPrompts productName).map (fun p => strOrEmpty (oracle p)) }

/-- The `withTextPrompts` list of `generateProductImages` in part_011. -/
def p11WithTextPrompts (productName slogan : String) : List String :=
  [ "Anúncio de marketing atraente para \x27" ++ productName ++ "\x27. A imagem deve ter um visual premium com o slogan \x27" ++ slogan ++ "\x27 integrado elegantemente com tipografia sofisticada. Foco no apelo visual do produto."
  , "Banner promocional para e-commerce mostrando \x27" ++ productName ++ "\x27. O texto \x27" ++ slogan ++ "\x27 deve ser claro e impactante. Composição dinâmica e cores vibrantes."
  , "Post para redes sociais para o produto \x27" ++ productName ++ "\x27. Incluir o texto \x27" ++ slogan ++ "\x27 de forma criativa. Estilo moderno, limpo e profissional."
  , "Imagem de herói para um site, destacando \x27" ++ productName ++ "\x27. O slogan \x27" ++ slogan ++ "\x27 deve ser posicionado de forma a não cobrir o produto. Iluminação dramática."
  , "Gráfico para e-mail marketing de \x27" ++ productName ++ "\x27. O texto \x27" ++ slogan ++ "\x27 deve ser o call-to-action principal. Fundo que complementa o produto." ]

def p11CleanPrompts (productName : String) : List String :=
  [ "Fotografia de produto profissional de e-commerce de \x27" ++ productName ++ "\x27, em um fundo branco infinito e limpo. Iluminação de estúdio perfeita, destacando as texturas e detalhes. Alta resolução, fotorrealista."
  , "Imagem de catálogo para \x27" ++ productName ++ "\x27. Fundo cinza claro e neutro. Sombra suave e realista. Foco total no produto."
  , "Foto de \x27" ++ productName ++ "\x27 isolado em um fundo branco puro. Sem distrações. Perfeito para marketplaces."
  , "Close-up detalhado de \x27" ++ productName ++ "\x27 em um fundo branco. A imagem deve mostrar a qualidade do material e a construção."
  , "Composição minimalista com \x27" ++ productName ++ "\x27 em um fundo branco. Ângulo de 45 graus." ]

def p11ModernPrompts (productName : String) : List String :=
  [ "Uma foto de estilo de vida mostrando \x27" ++ productName ++ "\x27 em um ambiente moderno e minimalista que se relaciona com seu uso. Iluminação natural suave, profundidade de campo rasa."
  , "Composição artística com \x27" ++ productName ++ "\x27 sobre um pedestal ou superfície de mármore. Fundo com gradiente de cor suave. Conceito de luxo e sofisticação."
  , "Foto de \x27" ++ productName ++ "\x27 com um efeito de levitação sobre um fundo de cor sólida e vibrante. Conceito criativo e moderno."
  , "Cena com \x27" ++ productName ++ "\x27 e elementos gráficos geométricos (círculos, linhas) em um layout de design contemporâneo. Paleta de cores moderna."
  , "\x27" ++ productName ++ "\x27 em um cenário abstrato com reflexos e sombras longas. Iluminação de estúdio dramática, criando um clima de mistério e elegância." ]

/-- `generateProductImages(content)` from part_011: fifteen independent
text-to-image calls whose settled results are compacted with
`.filter((img): img is string => !!img)` — failed slots are removed. -/
def generateProductImagesFilterVariant (content : ProductContentT)
    (oracle : String → Option String) : GeneratedImageSet :=
  let slogan := jsStrOr content.promotionalSlogan "Oferta Especial"
  let productName := content.name
  { withText := ((p11WithTextPrompts productName slogan).map oracle).filterMap truthyFilter
  , clean := ((p11CleanPrompts productName).map oracle).filterMap truthyFilter
  , modern := ((p11ModernPrompts productName).map oracle).filterMap truthyFilter }

/-- The `prompts.withText` list of `generateProductImages` in part_008
(image-editing variant; the slogan is interpolated without a default). -/
def p8WithTextPrompts (slogan : String) : List String :=
  [ "Adicione o texto promocional \"" ++ slogan ++ "\" a esta imagem de produto de forma criativa e legível. Use uma fonte moderna e atraente."
  , "Crie um banner para redes sociais a partir desta imagem, incluindo a frase de efeito: \"" ++ slogan ++ "\". O design deve ser vibrante."
  , "Incorpore o slogan \"" ++ slogan ++ "\" nesta imagem, como se fosse parte de um anúncio de revista de luxo."
  , "Gere uma versão desta imagem com o texto \"" ++ slogan ++ "\" em uma faixa elegante na parte inferior."
  , "Sobreponha o texto \"" ++ slogan ++ "\" nesta imagem com um efeito de neon sutil." ]

def p8CleanPrompts : List String :=
  [ "Remova o fundo desta imagem e substitua por um fundo branco puro de estúdio (#FFFFFF). Ajuste a iluminação para que seja profissional e focada no produto."
  , "Isole o produto desta imagem em um fundo cinza claro (#F5F5F5). Garanta que as sombras sejam suaves e naturais."
  , "Crie uma foto de produto limpa (packshot) a partir desta imagem, com fundo branco e um leve reflexo na base."
  , "Otimize esta imagem para um catálogo de e-commerce: fundo branco, sem distrações, e com cores bem definidas."
  , "Recorte o produto e coloque-o sobre um fundo branco. A imagem deve parecer ter sido tirada em um estúdio fotográfico profissional." ]

def p8ModernPrompts : List String :=
  [ "Coloque este produto em um cenário de estilo de vida moderno e minimalista que combine com ele. Use iluminação dramática."
  , "Crie uma composição artística com este produto, usando elementos geométricos e uma paleta de cores moderna e contrastante."
  , "Gere uma imagem \"flat lay\" deste produto, cercado por acessórios relevantes que contem uma história."
  , "Mostre este produto em uso em um ambiente urbano e contemporâneo. A imagem deve ter uma sensação de movimento e energia."
  , "Crie uma imagem conceitual e abstrata que destaque a principal característica deste produto. Use cores vibrantes e formas dinâmicas." ]

/-- `generateProductImages(content, baseImage)` from part_008: short-circuits
to an empty result set when no base image is given; otherwise issues the
fifteen editing calls and compacts each bucket with
`.filter((img): img is string => img !== null)` (which keeps the empty string).  The
second component counts the image-capability calls issued. -/
def generateProductImagesGated (content : ProductContentT)
    (baseImage : Option ImageFile) (oracle : String → Option String) :
    GeneratedImageSet × Nat :=
  match baseImage with
  | none => ({ withText := [], clean := [], modern := [] }, 0)
  | some _ =>
    let wt := p8WithTextPrompts content.promotionalSlogan
    ({ withText := (wt.map oracle).filterMap id
     , clean := (p8CleanPrompts.map oracle).filterMap id
     , modern := (p8ModernPrompts.map oracle).filterMap id },
     wt.length + p8CleanPrompts.length + p8ModernPrompts.length)

/-! ## App orchestration (`App.tsx` `handleGenerate`, both variants) -/

inductive GenerationStep where
  | idle : GenerationStep
  | base_image : GenerationStep
  | content : GenerationStep
  | images : GenerationStep
  | error : GenerationStep
  | done : GenerationStep
  deriving Repr, DecidableEq

structure AppState where
  step : GenerationStep
  productContent : Option ProductContentT
  generatedImage : Option String
  generatedMockups : List String
  errorMsg : Option String
  deriving Repr, DecidableEq

/-- The service invocations `handleGenerate` can issue. -/
inductive AppCall where
  | baseImageCall : AppCall
  | contentCall : AppCall
  | mainImageCall : AppCall
  | mockupsCall : AppCall
  deriving Repr, DecidableEq

/-- Outcome of one `handleGenerate` run: the final component state, the
values passed to `setGenerationStep` in order, and the service calls
issued in order. -/
structure RunResult where
  final : AppState
  steps : List GenerationStep
  calls : List AppCall
  deriving Repr, DecidableEq

/-- `!x` on a `string | null` value (null and the empty string are both falsy). -/
def jsStrFalsy (o : Option String) : Bool :=
  match o with
  | none => true
  | some s => s = ""

/-- First variant of `handleGenerate` (parallel flow).  Oracles:
`contentRes` for `generateProductContent`, `mainImageRes` for
`generateProductImages` (a `GeneratedProductImage`, i.e. `string | null`),
`mockupsRes` for `generateProductMockups`.  Both initial calls are issued
through one `Promise.all`; when both fail, its rejection value is the
content error (model choice for the nondeterministic first rejection). -/
def handleGenerateV1 (image : Bool)
    (contentRes : Except String ProductContentT)
    (mainImageRes : Except String (Option String))
    (mockupsRes : Except String (List String)) : RunResult :=
  let s0 : AppState :=
    { step := GenerationStep.content, productContent := none,
      generatedImage := none, generatedMockups := [], errorMsg := none }
  if image then
    match contentRes, mainImageRes with
    | Except.ok c, Except.ok img =>
      let s1 :=
        { s0 with
          productContent := some c, generatedImage := img,
          step := GenerationStep.images }
      if jsStrFalsy img then
        { final := { s1 with step := GenerationStep.done }
        , steps := [GenerationStep.content, GenerationStep.images, GenerationStep.done]
        , calls := [AppCall.contentCall, AppCall.mainImageCall] }
      else
        match mockupsRes with
        | Except.ok ms =>
          { final := { s1 with generatedMockups := ms, step := GenerationStep.done }
          , steps := [GenerationStep.content, GenerationStep.images, GenerationStep.done]
          , calls := [AppCall.contentCall, AppCall.mainImageCall, AppCall.mockupsCall] }
        | Except.error e =>
          { final := { s1 with errorMsg := some e, step := GenerationStep.error }
          , steps := [GenerationStep.content, GenerationStep.images, GenerationStep.error]
          , calls := [AppCall.contentCall, AppCall.mainImageCall, AppCall.mockupsCall] }
    | Except.error e, _ =>
      { final := { s0 with errorMsg := some e, step := GenerationStep.error }
      , steps := [GenerationStep.content, GenerationStep.error]
      , calls := [AppCall.contentCall, AppCall.mainImageCall] }
    | Except.ok _, Except.error e =>
      { final := { s0 with errorMsg := some e, step := GenerationStep.error }
      , steps := [GenerationStep.content, GenerationStep.error]
      , calls := [AppCall.contentCall, AppCall.mainImageCall] }
  else
    match contentRes with
    | Except.ok c =>
      { final := { s0 with productContent := some c, step := GenerationStep.done }
      , steps := [GenerationStep.content, GenerationStep.done]
      , calls := [AppCall.contentCall] }
    | Except.error e =>
      { final := { s0 with errorMsg := some e, step := GenerationStep.error }
      , steps := [GenerationStep.content, GenerationStep.error]
      , calls := [AppCall.contentCall] }

def scanContains (pat : List Char) : List Char → Bool
  | [] => pat.isEmpty
  | c :: rest => pat.isPrefixOf (c :: rest) || scanContains pat rest

def strContains (s pat : String) : Bool := scanContains pat.data s.data

def lowerStr (s : String) : String := String.mk (s.data.map Char.toLower)

/-- The catch block of the second `handleGenerate` variant: keyword
matching on the propagated error message picks the user-facing text. -/
def classifyErrorV2 (msg : String) : String :=
  if strContains msg "API Key não configurada" then
    "A chave de API não foi configurada. Peça a um administrador para adicioná-la no painel de admin."
  else if strContains msg "política de segurança" then
    "Sua solicitação foi bloqueada por nossa política de segurança. Tente usar uma imagem ou texto diferente."
  else if strContains msg "429" || strContains (lowerStr msg) "rate limit" then
    "Muitas solicitações foram feitas em um curto período. Por favor, aguarde um momento e tente novamente."
  else if strContains msg "formato inválido" then
    "A IA retornou uma resposta em formato inesperado. Isso pode ser um problema temporário. Tente novamente."
  else if strContains (lowerStr msg) "permission denied" ||
      strContains (lowerStr msg) "api key not valid" then
    "Falha ao chamar a API Gemini: a chave de API é inválida ou não tem permissão. Verifique a chave no painel de admin."
  else
    "A API parece estar sobrecarregada ou instável. Por favor, tente novamente em alguns instantes."

/-- The image-based sequential branch of the second `handleGenerate`
variant: content first, then the main image, then (only when the main
image is truthy) the mockups. -/
def handleGenerateV2Core (s0 : AppState)
    (contentRes : Except String ProductContentT)
    (mainImageRes : Except String (Option String))
    (mockupsRes : Except String (List String)) : RunResult :=
  match contentRes with
  | Except.error e =>
    { final := { s0 with
                   errorMsg := some (classifyErrorV2 e),
                   step := GenerationStep.error }
    , steps := [GenerationStep.content, GenerationStep.error]
    , calls := [AppCall.contentCall] }
  | Except.ok c =>
    match mainImageRes with
    | Except.error e =>
      { final := { s0 with
                     productContent := some c,
                     errorMsg := some (classifyErrorV2 e),
                     step := GenerationStep.error }
      , steps := [GenerationStep.content, GenerationStep.images, GenerationStep.error]
      , calls := [AppCall.contentCall, AppCall.mainImageCall] }
    | Except.ok img =>
      let s1 :=
        { s0 with
          productContent := some c, generatedImage := img,
          step := GenerationStep.images }
      if jsStrFalsy img then
        { final := { s1 with step := GenerationStep.done }
        , steps := [GenerationStep.content, GenerationStep.images, GenerationStep.done]
        , calls := [AppCall.contentCall, AppCall.mainImageCall] }
      else
        match mockupsRes with
        | Except.ok ms =>
          { final := { s1 with generatedMockups := ms, step := GenerationStep.done }
          , steps := [GenerationStep.content, GenerationStep.images, GenerationStep.done]
          , calls := [AppCall.contentCall, AppCall.mainImageCall, AppCall.mockupsCall] }
        | Except.error e =>
          { final := { s1 with
                         errorMsg := some (classifyErrorV2 e),
                         step := GenerationStep.error }
          , steps := [GenerationStep.content, GenerationStep.images, GenerationStep.error]
          , calls := [AppCall.contentCall, AppCall.mainImageCall, AppCall.mockupsCall] }

/-- Second variant of `handleGenerate` (sequential flow with optional
text-to-image base stage).  `imagePrompt` is truthy when present and
non-empty.  `baseImageRes` stands for `generateImageFromText` plus the
data-URL-to-file conversion. -/
def handleGenerateV2 (image : Bool) (imagePrompt : Option String)
    (baseImageRes : Except String Unit)
    (contentRes : Except String ProductContentT)
    (mainImageRes : Except String (Option String))
    (mockupsRes : Except String (List String)) : RunResult :=
  let s0 : AppState :=
    { step := GenerationStep.idle, productContent := none,
      generatedImage := none, generatedMockups := [], errorMsg := none }
  let wantBase := !image && !(jsStrFalsy imagePrompt)
  if wantBase then
    match baseImageRes with
    | Except.error e =>
      { final := { s0 with
                     errorMsg := some (classifyErrorV2 e),
                     step := GenerationStep.error }
      , steps := [GenerationStep.base_image, GenerationStep.error]
      , calls := [AppCall.baseImageCall] }
    | Except.ok _ =>
      let r := handleGenerateV2Core s0 contentRes mainImageRes mockupsRes
      { final := r.final
      , steps := GenerationStep.base_image :: r.steps
      , calls := AppCall.baseImageCall :: r.calls }
  else if image then
    handleGenerateV2Core s0 contentRes mainImageRes mockupsRes
  else
    match contentRes with
    | Except.ok c =>
      { final := { s0 with productContent := some c, step := GenerationStep.done }
      , steps := [GenerationStep.content, GenerationStep.done]
      , calls := [AppCall.contentCall] }
    | Except.error e =>
      { final := { s0 with
                     errorMsg := some (classifyErrorV2 e),
                     step := GenerationStep.error }
      , steps := [GenerationStep.content, GenerationStep.error]
      , calls := [AppCall.contentCall] }

/-! ## Content generation (services/geminiService.ts, single-model variant) -/

/-- A request part: an inline image attachment or an instruction text. -/
inductive GenPart where
  | imagePart (mime : String) : GenPart
  | textPart (text : String) : GenPart
  deriving Repr, DecidableEq

/-- The instruction template literal of `generateProductContent`. -/
def contentPromptBase : String :=
  "You are a world-class e-commerce marketing expert. Your task is to generate comprehensive and persuasive product content based on the provided information. \n  \n  **Instructions:**\n  1. Analyze the product from the image, keywords, or link provided.\n  2. Create compelling, SEO-friendly content that will drive sales.\n  3. All monetary values should be in BRL (Brazilian Real).\n  4. Generate the output in JSON format according to the provided schema.\n  5. The product is for the Brazilian market, so all text should be in Brazilian Portuguese.\n  \n  **Product Information:**"

def buildContentPromptV1 (hasImage : Bool) (title url : String) : String :=
  contentPromptBase
    ++ (if hasImage then "\n- Product Image: [Provided]" else "")
    ++ (if title = "" then "" else "\n- Keywords/Title: " ++ title)
    ++ (if url = "" then "" else "\n- Product Link (for context): " ++ url)

/-- The result object assembled by `generateProductContent`; fields carry
the dynamic JSON values the model returned (the TS types are not enforced
at runtime), with `none` standing for `undefined`. -/
structure ProductContentJS where
  name : Json
  description : Json
  category : Json
  brand : Option Json
  sku : Option Json
  price : Json
  promotionalPrice : Option Json
  keywords : Json
  variations : Json
  weight : Option Json
  dimensions : Option Json
  promotionalSlogan : Json
  generatedImages : List Json
  deriving Repr

/-- Property read on the parsed response value: objects yield the field
(or `undefined`); arrays and primitives yield `undefined`. -/
def getField : Json → String → Option Json
  | Json.obj fs, k => lookupField fs k
  | _, _ => none

/-- The `finalContent` record: `x || ''` / `x || 0` / `x || []` defaults on
the required fields, pass-through on the optional ones, and a fresh empty
`generatedImages`.  Reading a property of a parsed `null` throws a
TypeError (`none` here), which the surrounding catch absorbs. -/
def buildFinalContent (j : Json) : Option ProductContentJS :=
  match j with
  | Json.null => none
  | _ =>
    some
      { name := jsOrDefault (getField j "name") (Json.str "")
      , description := jsOrDefault (getField j "description") (Json.str "")
      , category := jsOrDefault (getField j "category") (Json.str "")
      , brand := getField j "brand"
      , sku := getField j "sku"
      , price := jsOrDefault (getField j "price") (Json.num 0)
      , promotionalPrice := getField j "promotionalPrice"
      , keywords := jsOrDefault (getField j "keywords") (Json.arr [])
      , variations := jsOrDefault (getField j "variations") (Json.arr [])
      , weight := getField j "weight"
      , dimensions := getField j "dimensions"
      , promotionalSlogan := jsOrDefault (getField j "promotionalSlogan") (Json.str "")
      , generatedImages := [] }

def missingInputMsg : String :=
  "Please provide an image, keywords, or a URL to generate content."

def genericContentFailMsg : String :=
  "Failed to generate product content. The model may have returned an invalid response. Please try again."

/-- `generateProductContent(image, title, url)` of services/geminiService.ts
(single-model variant).  `image` carries the attachment MIME type when
present; `modelResponse` is the outcome of the one
`ai.models.generateContent` call (`.ok` carries the raw response text).
The second component counts the model calls issued: the missing-input
check throws before the call, outside the try/catch. -/
def generateProductContentV1 (image : Option String) (title url : String)
    (modelResponse : Except String String) :
    Except String ProductContentJS × Nat :=
  let parts : List GenPart :=
    match image with
    | some m => [GenPart.imagePart m]
    | none => []
  let textPrompt := buildContentPromptV1 image.isSome title url
  if image = none ∧ title = "" ∧ url = "" then
    (Except.error missingInputMsg, 0)
  else
    let _allParts := parts ++ [GenPart.textPart textPrompt]
    match modelResponse with
    | Except.error _ => (Except.error genericContentFailMsg, 1)
    | Except.ok text =>
      match jsonParse (jsTrim text) with
      | none => (Except.error genericContentFailMsg, 1)
      | some j =>
        match buildFinalContent j with
        | some pc => (Except.ok pc, 1)
        | none => (Except.error genericContentFailMsg, 1)

/-- Used by statements about dynamic field types. -/
def isStrJson : Json → Bool
  | Json.str _ => true
  | _ => false

/-! ## Helper lemmas -/

theorem lookupField_insertField_self (fs : List (String × Json)) (k : String) (v : Json) :
    lookupField (insertField fs k v) k = some v := by
  induction fs with
  | nil => simp [insertField, lookupField]
  | cons p rest ih =>
    by_cases h : p.1 = k
    · simp [insertField, lookupField, h]
    · simp [insertField, lookupField, h, ih]

theorem lookupField_insertField_other (fs : List (String × Json)) (k k' : String) (v : Json)
    (hne : k' ≠ k) :
    lookupField (insertField fs k v) k' = lookupField fs k' := by
  induction fs with
  | nil => simp [insertField, lookupField, Ne.symm hne]
  | cons p rest ih =>
    obtain ⟨k1, v1⟩ := p
    by_cases h : k1 = k
    · subst h
      have hk : ¬ (k1 = k') := fun hh => hne hh.symm
      simp [insertField, lookupField, hk]
    · simp only [insertField, if_neg h, lookupField]
      by_cases h2 : k1 = k'
      · simp [h2]
      · simp [h2, ih]

theorem lookupField_setJsDefault_self (fs : List (String × Json)) (k : String) (d : Json) :
    lookupField (setJsDefault fs k d) k = some (jsOrDefault (lookupField fs k) d) := by
  simp [setJsDefault, lookupField_insertField_self]

theorem lookupField_setJsDefault_other (fs : List (String × Json)) (k k' : String) (d : Json)
    (hne : k' ≠ k) :
    lookupField (setJsDefault fs k d) k' = lookupField fs k' := by
  simp [setJsDefault, lookupField_insertField_other _ _ _ _ hne]

/-- The two default-assignments of part_007, as observable field facts. -/
theorem normalize_obj_spec (fs : List (String × Json)) :
    ∃ fs', normalizeParsedContent (Json.obj fs) = some (Json.obj fs') ∧
      lookupField fs' "keywords" = some (jsOrDefault (lookupField fs "keywords") (Json.arr [])) ∧
      lookupField fs' "variations" = some (jsOrDefault (lookupField fs "variations") (Json.arr [])) ∧
      (∀ k, k ≠ "keywords" → k ≠ "variations" → lookupField fs' k = lookupField fs k) := by
  refine ⟨_, rfl, ?_, ?_, ?_⟩
  · rw [lookupField_setJsDefault_other _ _ _ _ (by decide),
      lookupField_setJsDefault_self]
  · rw [lookupField_setJsDefault_self, lookupField_setJsDefault_other _ _ _ _ (by decide)]
  · intro k hk hv
    rw [lookupField_setJsDefault_other _ _ _ _ hv, lookupField_setJsDefault_other _ _ _ _ hk]

theorem truthyFilter_length (f : α → Option String) (l : List α) :
    ((l.map f).filterMap truthyFilter).length +
      l.countP (fun a => !(truthyFilter (f a)).isSome) = l.length := by
  induction l with
  | nil => simp
  | cons a rest ih =>
    cases h : truthyFilter (f a) with
    | none =>
      simp [List.countP_cons, h] at ih ⊢
      omega
    | some v =>
      simp [List.countP_cons, h] at ih ⊢
      omega

theorem truthyFilter_eq_some (o : Option String) (v : String)
    (h : truthyFilter o = some v) : strOrEmpty o = v := by
  cases o with
  | none => simp [truthyFilter] at h
  | some s =>
    by_cases hs : s = ""
    · simp [truthyFilter, hs] at h
    · simp only [truthyFilter, if_neg hs] at h
      cases h
      simp [strOrEmpty]

theorem truthyFilter_sublist (f : α → Option String) (l : List α) :
    List.Sublist ((l.map f).filterMap truthyFilter)
      (l.map (fun a => strOrEmpty (f a))) := by
  induction l with
  | nil => simp
  | cons a rest ih =>
    cases h : truthyFilter (f a) with
    | none =>
      simp only [List.map_cons, List.filterMap_cons, h]
      exact ih.cons _
    | some v =>
      simp only [List.map_cons, List.filterMap_cons, h]
      rw [truthyFilter_eq_some _ _ h] at *
      exact ih.cons₂ _

/-! ## Claim theorems -/

/-- C6: `withRetry` in part_007 retries a failing operation up to the fixed
bound of 3 attempts, the delay awaited before retry `i + 1` is
`1000 * 2 ^ i` ms (doubling from the 1-second base: 1 s, then 2 s); after
the third failed attempt the last failure is re-thrown unchanged to the
caller and no further delay is awaited. -/
theorem c6_retry_backoff (attempt : Nat → Except String α) (e0 e1 e2 : String)
    (h0 : attempt 0 = Except.error e0) (h1 : attempt 1 = Except.error e1)
    (h2 : attempt 2 = Except.error e2) :
    withRetry attempt 3 1000 = (Except.error (some e2), [1000 * 2 ^ 0, 1000 * 2 ^ 1]) := by
  simp [withRetry, withRetryGo, h0, h1, h2]

/-- Witness for C6 at a concrete always-failing operation. -/
theorem c6_retry_backoff_witness :
    withRetry (fun i => (Except.error (toString i) : Except String Nat)) 3 1000 =
      (Except.error (some "2"), [1000 * 2 ^ 0, 1000 * 2 ^ 1]) :=
  c6_retry_backoff (fun i => Except.error (toString i)) "0" "1" "2" rfl rfl rfl

/-- C5: the content generation of part_011 tries the prioritized model list in
order; the first model whose call succeeds and whose response text parses
wins and its parsed result is returned (no aggregated failure); when both
models fail, a single aggregated error is raised naming the attempt count
(2) and the last underlying error message. -/
theorem c5_model_fallback (oracle : String → Except String String) :
    (∀ t j, oracle "gemini-2.5-pro" = Except.ok t → jsonParse (jsTrim t) = some j →
      generateProductContentFallback oracle = (Except.ok j, ["gemini-2.5-pro"])) ∧
    (∀ e t j, oracle "gemini-2.5-pro" = Except.error e →
      oracle "gemini-2.5-flash" = Except.ok t → jsonParse (jsTrim t) = some j →
      generateProductContentFallback oracle =
        (Except.ok j, ["gemini-2.5-pro", "gemini-2.5-flash"])) ∧
    (∀ t1 t2 j, oracle "gemini-2.5-pro" = Except.ok t1 → jsonParse (jsTrim t1) = none →
      oracle "gemini-2.5-flash" = Except.ok t2 → jsonParse (jsTrim t2) = some j →
      generateProductContentFallback oracle =
        (Except.ok j, ["gemini-2.5-pro", "gemini-2.5-flash"])) ∧
    (∀ e1 e2, oracle "gemini-2.5-pro" = Except.error e1 →
      oracle "gemini-2.5-flash" = Except.error e2 →
      generateProductContentFallback oracle =
        (Except.error
          ("A geração de conteúdo falhou após tentar 2 modelos. Por favor, tente novamente. (Erro: "
            ++ e2 ++ ")"),
         ["gemini-2.5-pro", "gemini-2.5-flash"])) := by
  refine ⟨?_, ?_, ?_, ?_⟩
  · intro t j h hp
    simp [generateProductContentFallback, fallbackGo, modelsToTry, h, hp]
  · intro e t j h h2 hp
    simp [generateProductContentFallback, fallbackGo, modelsToTry, h, h2, hp]
  · intro t1 t2 j h1 hp1 h2 hp2
    simp [generateProductContentFallback, fallbackGo, modelsToTry, h1, hp1, h2, hp2]
  · intro e1 e2 h1 h2
    simp only [generateProductContentFallback, fallbackGo, modelsToTry, h1, h2,
      contentFallbackAggMsg]
    rfl

/-- Witness for C5: the first model fails, the second returns `{}`. -/
theorem c5_model_fallback_witness :
    generateProductContentFallback
      (fun m => if m = "gemini-2.5-pro" then Except.error "boom"
                else Except.ok "\x7b\x7d") =
      (Except.ok (Json.obj []), ["gemini-2.5-pro", "gemini-2.5-flash"]) :=
  (c5_model_fallback _).2.1 "boom" "\x7b\x7d" (Json.obj []) rfl rfl rfl

/-- C9: with no image, empty title and empty url, the single-model
`generateProductContent` throws the missing-input error before issuing any
model call (zero calls); and whenever a model call is issued, at least one
of the three inputs was present. -/
theorem c9_missing_input_guard (modelResponse : Except String String) :
    generateProductContentV1 none "" "" modelResponse =
      (Except.error "Please provide an image, keywords, or a URL to generate content.", 0) ∧
    (∀ (image : Option String) (title url : String),
      (generateProductContentV1 image title url modelResponse).2 ≠ 0 →
      image ≠ none ∨ title ≠ "" ∨ url ≠ "") := by
  constructor
  · simp [generateProductContentV1, missingInputMsg]
  · intro image title url h
    by_contra hall
    push_neg at hall
    obtain ⟨hi, ht, hu⟩ := hall
    subst hi ht hu
    simp [generateProductContentV1] at h

/-- Witness for C9 at concrete inputs. -/
theorem c9_missing_input_guard_witness :
    generateProductContentV1 none "" "" (Except.ok "\x7b\x7d") =
      (Except.error "Please provide an image, keywords, or a URL to generate content.", 0) ∧
    ((some "image/png" : Option String) ≠ none ∨ "tênis" ≠ "" ∨ "" ≠ "") :=
  ⟨(c9_missing_input_guard (Except.ok "\x7b\x7d")).1,
   (c9_missing_input_guard (Except.ok "\x7b\x7d")).2 (some "image/png") "tênis" ""
     (by decide)⟩

/-- C1: in an image-based run, when content generation succeeds but the
primary image generation returns null, both `handleGenerate` variants
finish the run in `done` (never `error`), keep the content available, and
issue no dependent image request (no mockups call) — the only calls are the
content call and the one primary-image call. -/
theorem c1_primary_image_failure_stops_pipeline (c : ProductContentT)
    (contentRes : Except String ProductContentT)
    (mainImageRes : Except String (Option String))
    (mockupsRes : Except String (List String))
    (baseImageRes : Except String Unit)
    (hc : contentRes = Except.ok c) (hi : mainImageRes = Except.ok none) :
    ((handleGenerateV1 true contentRes mainImageRes mockupsRes).final.step =
        GenerationStep.done ∧
      (handleGenerateV1 true contentRes mainImageRes mockupsRes).final.step ≠
        GenerationStep.error ∧
      (handleGenerateV1 true contentRes mainImageRes mockupsRes).final.productContent =
        some c ∧
      (handleGenerateV1 true contentRes mainImageRes mockupsRes).calls =
        [AppCall.contentCall, AppCall.mainImageCall]) ∧
    ((handleGenerateV2 true none baseImageRes contentRes mainImageRes mockupsRes).final.step =
        GenerationStep.done ∧
      (handleGenerateV2 true none baseImageRes contentRes mainImageRes mockupsRes).final.step ≠
        GenerationStep.error ∧
      (handleGenerateV2 true none baseImageRes contentRes mainImageRes mockupsRes).final.productContent =
        some c ∧
      (handleGenerateV2 true none baseImageRes contentRes mainImageRes mockupsRes).calls =
        [AppCall.contentCall, AppCall.mainImageCall]) := by
  subst hc hi
  constructor
  · refine ⟨?_, ?_, ?_, ?_⟩ <;>
      simp [handleGenerateV1, jsStrFalsy]
  · refine ⟨?_, ?_, ?_, ?_⟩ <;>
      simp [handleGenerateV2, handleGenerateV2Core, jsStrFalsy]

/-- Witness for C1 at concrete oracles. -/
theorem c1_primary_image_failure_stops_pipeline_witness :
    ((handleGenerateV1 true (Except.ok ⟨"Caneca", "Oferta"⟩) (Except.ok none)
        (Except.ok ["m"])).final.step = GenerationStep.done ∧
      (handleGenerateV1 true (Except.ok ⟨"Caneca", "Oferta"⟩) (Except.ok none)
        (Except.ok ["m"])).final.step ≠ GenerationStep.error ∧
      (handleGenerateV1 true (Except.ok ⟨"Caneca", "Oferta"⟩) (Except.ok none)
        (Except.ok ["m"])).final.productContent = some ⟨"Caneca", "Oferta"⟩ ∧
      (handleGenerateV1 true (Except.ok ⟨"Caneca", "Oferta"⟩) (Except.ok none)
        (Except.ok ["m"])).calls = [AppCall.contentCall, AppCall.mainImageCall]) ∧
    ((handleGenerateV2 true none (Except.ok ()) (Except.ok ⟨"Caneca", "Oferta"⟩)
        (Except.ok none) (Except.ok ["m"])).final.step = GenerationStep.done ∧
      (handleGenerateV2 true none (Except.ok ()) (Except.ok ⟨"Caneca", "Oferta"⟩)
        (Except.ok none) (Except.ok ["m"])).final.step ≠ GenerationStep.error ∧
      (handleGenerateV2 true none (Except.ok ()) (Except.ok ⟨"Caneca", "Oferta"⟩)
        (Except.ok none) (Except.ok ["m"])).final.productContent = some ⟨"Caneca", "Oferta"⟩ ∧
      (handleGenerateV2 true none (Except.ok ()) (Except.ok ⟨"Caneca", "Oferta"⟩)
        (Except.ok none) (Except.ok ["m"])).calls =
        [AppCall.contentCall, AppCall.mainImageCall]) :=
  c1_primary_image_failure_stops_pipeline ⟨"Caneca", "Oferta"⟩ _ _ (Except.ok ["m"])
    (Except.ok ()) rfl rfl

/-- C8: a title-only submission (no source image) runs the stage sequence
idle → content → done with the images stage skipped entirely — the only
service call is the content call, and the final state has no generated
image, no mockups and no error; and the part_008 `generateProductImages`
invoked without a base image short-circuits to the empty result set with
zero image-capability calls. -/
theorem c8_text_only_run (c : ProductContentT)
    (contentRes : Except String ProductContentT)
    (mainImageRes : Except String (Option String))
    (mockupsRes : Except String (List String))
    (oracle : String → Option String)
    (hc : contentRes = Except.ok c) :
    GenerationStep.idle :: (handleGenerateV1 false contentRes mainImageRes mockupsRes).steps =
      [GenerationStep.idle, GenerationStep.content, GenerationStep.done] ∧
    (handleGenerateV1 false contentRes mainImageRes mockupsRes).calls =
      [AppCall.contentCall] ∧
    (handleGenerateV1 false contentRes mainImageRes mockupsRes).final.step =
      GenerationStep.done ∧
    (handleGenerateV1 false contentRes mainImageRes mockupsRes).final.generatedImage = none ∧
    (handleGenerateV1 false contentRes mainImageRes mockupsRes).final.generatedMockups = [] ∧
    (handleGenerateV1 false contentRes mainImageRes mockupsRes).final.errorMsg = none ∧
    generateProductImagesGated c none oracle =
      ({ withText := [], clean := [], modern := [] }, 0) := by
  subst hc
  refine ⟨?_, ?_, ?_, ?_, ?_, ?_, ?_⟩ <;>
    simp [handleGenerateV1, generateProductImagesGated]

/-- Witness for C8 at concrete oracles. -/
theorem c8_text_only_run_witness :
    GenerationStep.idle :: (handleGenerateV1 false (Except.ok ⟨"Caneca", ""⟩)
        (Except.ok none) (Except.ok [])).steps =
      [GenerationStep.idle, GenerationStep.content, GenerationStep.done] ∧
    (handleGenerateV1 false (Except.ok ⟨"Caneca", ""⟩) (Except.ok none)
      (Except.ok [])).calls = [AppCall.contentCall] ∧
    (handleGenerateV1 false (Except.ok ⟨"Caneca", ""⟩) (Except.ok none)
      (Except.ok [])).final.step = GenerationStep.done ∧
    (handleGenerateV1 false (Except.ok ⟨"Caneca", ""⟩) (Except.ok none)
      (Except.ok [])).final.generatedImage = none ∧
    (handleGenerateV1 false (Except.ok ⟨"Caneca", ""⟩) (Except.ok none)
      (Except.ok [])).final.generatedMockups = [] ∧
    (handleGenerateV1 false (Except.ok ⟨"Caneca", ""⟩) (Except.ok none)
      (Except.ok [])).final.errorMsg = none ∧
    generateProductImagesGated ⟨"Caneca", ""⟩ none (fun _ => none) =
      ({ withText := [], clean := [], modern := [] }, 0) :=
  c8_text_only_run ⟨"Caneca", ""⟩ _ (Except.ok none) (Except.ok [])
    (fun _ => none) rfl

theorem ratFloorNat_le_of_le (q : ℚ) (n : Nat) (h : q ≤ n) : ratFloorNat q ≤ n := by
  rw [ratFloorNat, Int.toNat_le]
  calc Int.floor q ≤ Int.floor ((n : ℚ)) := Int.floor_mono h
  _ = n := Int.floor_natCast n

theorem ratFloorNat_cast_le (q : ℚ) (hq : 0 ≤ q) : (ratFloorNat q : ℚ) ≤ q := by
  have h0 : (0 : ℤ) ≤ Int.floor q := Int.floor_nonneg.mpr hq
  rw [ratFloorNat]
  rw [show ((Int.toNat (Int.floor q) : ℕ) : ℚ) = ((Int.floor q : ℤ) : ℚ) from by
    exact_mod_cast congrArg (fun z : ℤ => (z : ℚ)) (Int.toNat_of_nonneg h0)]
  exact Int.floor_le q

theorem lt_ratFloorNat_add_one (q : ℚ) (hq : 0 ≤ q) : q < ratFloorNat q + 1 := by
  have h0 : (0 : ℤ) ≤ Int.floor q := Int.floor_nonneg.mpr hq
  have h1 := Int.lt_floor_add_one q
  rw [ratFloorNat]
  rw [show ((Int.toNat (Int.floor q) : ℕ) : ℚ) = ((Int.floor q : ℤ) : ℚ) from by
    exact_mod_cast congrArg (fun z : ℤ => (z : ℚ)) (Int.toNat_of_nonneg h0)]
  exact_mod_cast h1

/-- C7: `resizeImage` returns the input unchanged when both dimensions are
already within `maxDimension`; otherwise it returns a new file with the
same logical name, re-encoded as `image/jpeg` at quality 0.9, whose longer
edge equals `maxDimension` and whose other edge is the exact proportional
value within one pixel of rounding (aspect ratio preserved up to
truncation). -/
theorem c7_resize_contract (file : ImageFile) (maxDimension : Nat) :
    (file.width ≤ maxDimension ∧ file.height ≤ maxDimension →
      resizeImage file maxDimension = ResizeResult.unchanged file) ∧
    (¬ (file.width ≤ maxDimension ∧ file.height ≤ maxDimension) →
      ∃ f', resizeImage file maxDimension = ResizeResult.reencoded f' ((9 : Rat) / 10) ∧
        f'.name = file.name ∧ f'.mime = "image/jpeg" ∧
        max f'.width f'.height = maxDimension ∧
        (file.height < file.width →
          f'.width = maxDimension ∧
          (f'.height : ℚ) ≤ (file.height : ℚ) * maxDimension / file.width ∧
          (file.height : ℚ) * maxDimension / file.width < f'.height + 1) ∧
        (file.width ≤ file.height →
          f'.height = maxDimension ∧
          (f'.width : ℚ) ≤ (file.width : ℚ) * maxDimension / file.height ∧
          (file.width : ℚ) * maxDimension / file.height < f'.width + 1)) := by
  constructor
  · intro h
    simp [resizeImage, h]
  · intro hnot
    push_neg at hnot
    by_cases hwh : file.height < file.width
    · -- landscape: width pinned to maxDimension, height scaled down
      have hw : 0 < file.width := by omega
      have hwq : (0 : ℚ) < (file.width : ℚ) := by exact_mod_cast hw
      have hq : (0 : ℚ) ≤ ((file.height * maxDimension : Nat) : ℚ) / (file.width : ℚ) :=
        div_nonneg (by positivity) (by positivity)
      have hcast : ((file.height * maxDimension : Nat) : ℚ) / (file.width : ℚ) =
          (file.height : ℚ) * maxDimension / file.width := by
        push_cast
        ring
      have hle : ((file.height * maxDimension : Nat) : ℚ) / (file.width : ℚ) ≤
          (maxDimension : ℚ) := by
        rw [div_le_iff₀ hwq]
        push_cast
        have hhw : (file.height : ℚ) ≤ (file.width : ℚ) := by
          exact_mod_cast Nat.le_of_lt hwh
        nlinarith [show (0 : ℚ) ≤ (maxDimension : ℚ) from by positivity]
      refine ⟨⟨file.name, "image/jpeg", maxDimension,
        ratFloorNat (((file.height * maxDimension : Nat) : Rat) / (file.width : Rat))⟩,
        ?_, rfl, rfl, ?_, ?_, ?_⟩
      · simp only [resizeImage, gt_iff_lt, hwh, if_pos]
        rw [if_neg (by omega)]
      · exact Nat.max_eq_left (ratFloorNat_le_of_le _ _ hle)
      · intro _
        refine ⟨rfl, ?_, ?_⟩
        · rw [← hcast]
          exact ratFloorNat_cast_le _ hq
        · rw [← hcast]
          exact lt_ratFloorNat_add_one _ hq
      · intro hcontra
        omega
    · -- portrait or square: height pinned to maxDimension, width scaled down
      have hwle : file.width ≤ file.height := by omega
      have hh : 0 < file.height := by omega
      have hhq : (0 : ℚ) < (file.height : ℚ) := by exact_mod_cast hh
      have hq : (0 : ℚ) ≤ ((file.width * maxDimension : Nat) : ℚ) / (file.height : ℚ) :=
        div_nonneg (by positivity) (by positivity)
      have hcast : ((file.width * maxDimension : Nat) : ℚ) / (file.height : ℚ) =
          (file.width : ℚ) * maxDimension / file.height := by
        push_cast
        ring
      have hle : ((file.width * maxDimension : Nat) : ℚ) / (file.height : ℚ) ≤
          (maxDimension : ℚ) := by
        rw [div_le_iff₀ hhq]
        push_cast
        have hhw : (file.width : ℚ) ≤ (file.height : ℚ) := by exact_mod_cast hwle
        nlinarith [show (0 : ℚ) ≤ (maxDimension : ℚ) from by positivity]
      refine ⟨⟨file.name, "image/jpeg",
        ratFloorNat (((file.width * maxDimension : Nat) : Rat) / (file.height : Rat)),
        maxDimension⟩, ?_, rfl, rfl, ?_, ?_, ?_⟩
      · simp only [resizeImage, gt_iff_lt, hwh, if_neg]
        rw [if_neg (by omega)]
        simp [hwh]
      · exact Nat.max_eq_right (ratFloorNat_le_of_le _ _ hle)
      · intro hcontra
        omega
      · intro _
        refine ⟨rfl, ?_, ?_⟩
        · rw [← hcast]
          exact ratFloorNat_cast_le _ hq
        · rw [← hcast]
          exact lt_ratFloorNat_add_one _ hq

/-- Witness for C7: a 2048 × 1024 image resized with bound 1024. -/
theorem c7_resize_contract_witness :
    ∃ f', resizeImage ⟨"a.png", "image/png", 2048, 1024⟩ 1024 =
        ResizeResult.reencoded f' ((9 : Rat) / 10) ∧
      f'.name = (⟨"a.png", "image/png", 2048, 1024⟩ : ImageFile).name ∧
      f'.mime = "image/jpeg" ∧
      max f'.width f'.height = 1024 ∧
      ((⟨"a.png", "image/png", 2048, 1024⟩ : ImageFile).height <
          (⟨"a.png", "image/png", 2048, 1024⟩ : ImageFile).width →
        f'.width = 1024 ∧
        (f'.height : ℚ) ≤ ((⟨"a.png", "image/png", 2048, 1024⟩ : ImageFile).height : ℚ) *
          1024 / (⟨"a.png", "image/png", 2048, 1024⟩ : ImageFile).width ∧
        ((⟨"a.png", "image/png", 2048, 1024⟩ : ImageFile).height : ℚ) * 1024 /
          (⟨"a.png", "image/png", 2048, 1024⟩ : ImageFile).width < f'.height + 1) ∧
      ((⟨"a.png", "image/png", 2048, 1024⟩ : ImageFile).width ≤
          (⟨"a.png", "image/png", 2048, 1024⟩ : ImageFile).height →
        f'.height = 1024 ∧
        (f'.width : ℚ) ≤ ((⟨"a.png", "image/png", 2048, 1024⟩ : ImageFile).width : ℚ) *
          1024 / (⟨"a.png", "image/png", 2048, 1024⟩ : ImageFile).height ∧
        ((⟨"a.png", "image/png", 2048, 1024⟩ : ImageFile).width : ℚ) * 1024 /
          (⟨"a.png", "image/png", 2048, 1024⟩ : ImageFile).height < f'.width + 1) :=
  (c7_resize_contract ⟨"a.png", "image/png", 2048, 1024⟩ 1024).2 (by decide)

/-- C2 concrete scenario: content whose slogan falls back to the default. -/
def c2Content : ProductContentT := { name := "Caneca", promotionalSlogan := "" }

/-- The one dependent-image request made to fail in the C2 scenario. -/
def c2FailingPrompt : String := (p11WithTextPrompts "Caneca" "Oferta Especial").headI

/-- Oracle failing exactly on `c2FailingPrompt`. -/
def c2Oracle : String → Option String :=
  fun p => if p = c2FailingPrompt then none else some "data:image/jpeg;base64,AAA"

set_option maxRecDepth 16384 in
/-- C2 counterexample: in the part_011 filter-aggregation
`generateProductImages`, with 5 withText prompts of which exactly one
request fails, the returned bucket has 4 slots, not 5 — the failing slot
is removed rather than kept as a placeholder. -/
theorem c2_counterexample :
    (p11WithTextPrompts "Caneca" "Oferta Especial").length = 5 ∧
    (p11WithTextPrompts "Caneca" "Oferta Especial").countP
      (fun p => (c2Oracle p).isNone) = 1 ∧
    (generateProductImagesFilterVariant c2Content c2Oracle).withText.length = 4 := by
  refine ⟨by decide, by decide, by decide⟩

/-- C2 (amended): the map-aggregation `generateProductImages` keeps exactly
one slot per prompt in every bucket, with a failed request contributing the
`''` placeholder at its own position and successes kept at theirs; the
later filter-aggregation variant instead removes failed (or empty) slots —
each bucket shrinks by exactly the number of failures while the surviving
images keep their relative order. -/
theorem c2_bucket_slots (content : ProductContentT) (oracle : String → Option String)
    (hname : content.name ≠ "") :
    ((generateProductImagesMapVariant content oracle).withText.length = 5 ∧
     (generateProductImagesMapVariant content oracle).clean.length = 5 ∧
     (generateProductImagesMapVariant content oracle).modern.length = 5) ∧
    (∀ i : Nat, (generateProductImagesMapVariant content oracle).withText[i]? =
      ((gsWithTextPrompts content.name
          (jsStrOr content.promotionalSlogan "Oferta Especial"))[i]?).map
        (fun p => strOrEmpty (oracle p))) ∧
    (∀ i : Nat, (generateProductImagesMapVariant content oracle).clean[i]? =
      ((gsCleanPrompts content.name)[i]?).map (fun p => strOrEmpty (oracle p))) ∧
    (∀ i : Nat, (generateProductImagesMapVariant content oracle).modern[i]? =
      ((gsModernPrompts content.name)[i]?).map (fun p => strOrEmpty (oracle p))) ∧
    ((generateProductImagesFilterVariant content oracle).withText.length +
        (p11WithTextPrompts content.name
          (jsStrOr content.promotionalSlogan "Oferta Especial")).countP
          (fun p => !(truthyFilter (oracle p)).isSome) = 5) ∧
    List.Sublist (generateProductImagesFilterVariant content oracle).withText
      ((p11WithTextPrompts content.name
          (jsStrOr content.promotionalSlogan "Oferta Especial")).map
        (fun p => strOrEmpty (oracle p))) := by
  refine ⟨⟨?_, ?_, ?_⟩, ?_, ?_, ?_, ?_, ?_⟩
  · simp [generateProductImagesMapVariant, hname, gsWithTextPrompts]
  · simp [generateProductImagesMapVariant, hname, gsCleanPrompts]
  · simp [generateProductImagesMapVariant, hname, gsModernPrompts]
  · intro i
    simp [generateProductImagesMapVariant, hname, List.getElem?_map]
  · intro i
    simp [generateProductImagesMapVariant, hname, List.getElem?_map]
  · intro i
    simp [generateProductImagesMapVariant, hname, List.getElem?_map]
  · have h := truthyFilter_length oracle
      (p11WithTextPrompts content.name (jsStrOr content.promotionalSlogan "Oferta Especial"))
    simp only [generateProductImagesFilterVariant]
    rw [show (p11WithTextPrompts content.name
        (jsStrOr content.promotionalSlogan "Oferta Especial")).length = 5 from by
      simp [p11WithTextPrompts]] at h
    exact h
  · simpa [generateProductImagesFilterVariant] using
      truthyFilter_sublist oracle
        (p11WithTextPrompts content.name (jsStrOr content.promotionalSlogan "Oferta Especial"))

/-- Witness for C2 (amended) at the concrete scenario content and oracle. -/
theorem c2_bucket_slots_witness :
    (generateProductImagesMapVariant c2Content c2Oracle).withText.length = 5 ∧
    (generateProductImagesFilterVariant c2Content c2Oracle).withText.length +
        (p11WithTextPrompts c2Content.name
          (jsStrOr c2Content.promotionalSlogan "Oferta Especial")).countP
          (fun p => !(truthyFilter (c2Oracle p)).isSome) = 5 :=
  ⟨(c2_bucket_slots c2Content c2Oracle (by decide)).1.1,
   (c2_bucket_slots c2Content c2Oracle (by decide)).2.2.2.2.1⟩

/-- C3 counterexample: `[ true ]` is neither a bare JSON object nor a
fenced block, yet the parser returns the array silently instead of raising
the invalid-response-format error. -/
theorem c3_counterexample :
    jsonParse "[ true ]" = some (Json.arr [Json.bool true]) ∧
    findFence (jsTrim "[ true ]").data = none ∧
    parseProductContentResponse "[ true ]" = Except.ok (Json.arr [Json.bool true]) :=
  ⟨rfl, rfl, rfl⟩

/-- C3 (amended): the content-response parser selects the candidate text by
a delimiter-matching scan — the whole trimmed response when no fenced block
matches (or its capture is empty), otherwise the trimmed capture; a
selected text that `JSON.parse`s as an object is accepted with its fields
preserved (beyond the keyword/variation defaults); a selected text that
fails to parse, or parses as null or a primitive, raises the distinct
invalid-response-format error; but a selected text parsing as a JSON array
is returned silently. -/
theorem c3_parser_shapes (t : String) :
    (findFence (jsTrim t).data = none → extractJsonString t = jsTrim t) ∧
    (∀ seg, findFence (jsTrim t).data = some seg → trimChars seg ≠ [] →
      extractJsonString t = String.mk (trimChars seg)) ∧
    (∀ fs, jsonParse (extractJsonString t) = some (Json.obj fs) →
      ∃ fs', parseProductContentResponse t = Except.ok (Json.obj fs') ∧
        ∀ k, k ≠ "keywords" → k ≠ "variations" →
          lookupField fs' k = lookupField fs k) ∧
    (jsonParse (extractJsonString t) = none →
      parseProductContentResponse t = Except.error invalidFormatMsg) ∧
    (jsonParse (extractJsonString t) = some Json.null →
      parseProductContentResponse t = Except.error invalidFormatMsg) ∧
    (∀ b, jsonParse (extractJsonString t) = some (Json.bool b) →
      parseProductContentResponse t = Except.error invalidFormatMsg) ∧
    (∀ q, jsonParse (extractJsonString t) = some (Json.num q) →
      parseProductContentResponse t = Except.error invalidFormatMsg) ∧
    (∀ s, jsonParse (extractJsonString t) = some (Json.str s) →
      parseProductContentResponse t = Except.error invalidFormatMsg) ∧
    (∀ xs, jsonParse (extractJsonString t) = some (Json.arr xs) →
      parseProductContentResponse t = Except.ok (Json.arr xs)) := by
  refine ⟨?_, ?_, ?_, ?_, ?_, ?_, ?_, ?_, ?_⟩
  · intro h
    simp [extractJsonString, h]
  · intro seg hseg hne
    simp [extractJsonString, hseg, hne]
  · intro fs h
    obtain ⟨fs', hnorm, _, _, hother⟩ := normalize_obj_spec fs
    exact ⟨fs', by simp [parseProductContentResponse, h, hnorm], hother⟩
  · intro h
    simp [parseProductContentResponse, h]
  · intro h
    simp [parseProductContentResponse, h, normalizeParsedContent]
  · intro b h
    simp [parseProductContentResponse, h, normalizeParsedContent]
  · intro q h
    simp [parseProductContentResponse, h, normalizeParsedContent]
  · intro s h
    simp [parseProductContentResponse, h, normalizeParsedContent]
  · intro xs h
    simp [parseProductContentResponse, h, normalizeParsedContent]

/-- Witness for C3 (amended): a fence-wrapped object response. -/
theorem c3_parser_shapes_witness :
    ∃ fs', parseProductContentResponse "```json\n\x7b\"a\": true\x7d\n```" =
        Except.ok (Json.obj fs') ∧
      ∀ k, k ≠ "keywords" → k ≠ "variations" →
        lookupField fs' k = lookupField [("a", Json.bool true)] k :=
  (c3_parser_shapes "```json\n\x7b\"a\": true\x7d\n```").2.2.1
    [("a", Json.bool true)] rfl

/-- C4 counterexample: the empty object parses successfully, and the
normalized result carries only the keyword/variation defaults — hashtags,
imageTextSuggestions, coupon and videoScript remain absent, not
zero-valued. -/
theorem c4_counterexample :
    parseProductContentResponse "\x7b\x7d" =
      Except.ok (Json.obj [("keywords", Json.arr []), ("variations", Json.arr [])]) ∧
    lookupField [("keywords", Json.arr []), ("variations", Json.arr [])] "hashtags" = none ∧
    lookupField [("keywords", Json.arr []), ("variations", Json.arr [])]
      "imageTextSuggestions" = none ∧
    lookupField [("keywords", Json.arr []), ("variations", Json.arr [])] "coupon" = none ∧
    lookupField [("keywords", Json.arr []), ("variations", Json.arr [])] "videoScript" = none :=
  ⟨rfl, rfl, rfl, rfl, rfl⟩

/-- C4 (amended): post-parse normalization guarantees only that `keywords`
and `variations` are present (defaulting to empty sequences when absent);
every other field — including hashtags, imageTextSuggestions, coupon and
videoScript — is passed through unchanged and remains absent when the
model omitted it. -/
theorem c4_normalization_defaults (t : String) (fs : List (String × Json))
    (h : jsonParse (extractJsonString t) = some (Json.obj fs)) :
    ∃ fs', parseProductContentResponse t = Except.ok (Json.obj fs') ∧
      (lookupField fs' "keywords").isSome = true ∧
      (lookupField fs' "variations").isSome = true ∧
      (lookupField fs "keywords" = none →
        lookupField fs' "keywords" = some (Json.arr [])) ∧
      (lookupField fs "variations" = none →
        lookupField fs' "variations" = some (Json.arr [])) ∧
      (∀ k, k ≠ "keywords" → k ≠ "variations" →
        lookupField fs' k = lookupField fs k) := by
  obtain ⟨fs', hnorm, hk, hv, hother⟩ := normalize_obj_spec fs
  refine ⟨fs', by simp [parseProductContentResponse, h, hnorm], by simp [hk],
    by simp [hv], ?_, ?_, hother⟩
  · intro habs
    rw [hk, habs]
    rfl
  · intro habs
    rw [hv, habs]
    rfl

/-- Witness for C4 (amended) at the empty-object response. -/
theorem c4_normalization_defaults_witness :
    ∃ fs', parseProductContentResponse "\x7b\x7d" = Except.ok (Json.obj fs') ∧
      (lookupField fs' "keywords").isSome = true ∧
      (lookupField fs' "variations").isSome = true ∧
      (lookupField ([] : List (String × Json)) "keywords" = none →
        lookupField fs' "keywords" = some (Json.arr [])) ∧
      (lookupField ([] : List (String × Json)) "variations" = none →
        lookupField fs' "variations" = some (Json.arr [])) ∧
      (∀ k, k ≠ "keywords" → k ≠ "variations" →
        lookupField fs' k = lookupField ([] : List (String × Json)) k) :=
  c4_normalization_defaults "\x7b\x7d" [] rfl

/-- Projection used by closed statements about the dynamic result. -/
def contentNameOf : Except String ProductContentJS → Option Json
  | Except.ok pc => some pc.name
  | Except.error _ => none

/-- C10 counterexample: the response `{"name": true}` parses as a JSON
object, and the `name` of the assembled content is the boolean `true`, passed
through unchanged — not a string. -/
theorem c10_counterexample :
    (generateProductContentV1 none "tênis" "" (Except.ok "\x7b\"name\": true\x7d")).2 = 1 ∧
    contentNameOf (generateProductContentV1 none "tênis" ""
      (Except.ok "\x7b\"name\": true\x7d")).1 = some (Json.bool true) ∧
    isStrJson (Json.bool true) = false :=
  ⟨rfl, rfl, rfl⟩

/-- C10 (amended): for every model response whose text parses as a JSON
object (given at least one input present), the single-model
`generateProductContent` returns a ProductContent in which name,
description, category and promotionalSlogan default to the empty string
when absent, price defaults to 0 when absent, keywords and variations
default to empty arrays, and generatedImages is always empty — a missing
field never causes a failure; fields that are present and truthy are
passed through unchanged, whatever their JSON type (they are not coerced
to the declared string/number types). -/
theorem c10_content_defaults (image : Option String) (title url resp : String)
    (fs : List (String × Json))
    (hin : image ≠ none ∨ title ≠ "" ∨ url ≠ "")
    (hparse : jsonParse (jsTrim resp) = some (Json.obj fs)) :
    ∃ pc, generateProductContentV1 image title url (Except.ok resp) = (Except.ok pc, 1) ∧
      (lookupField fs "name" = none → pc.name = Json.str "") ∧
      (lookupField fs "description" = none → pc.description = Json.str "") ∧
      (lookupField fs "category" = none → pc.category = Json.str "") ∧
      (lookupField fs "promotionalSlogan" = none → pc.promotionalSlogan = Json.str "") ∧
      (lookupField fs "price" = none → pc.price = Json.num 0) ∧
      (lookupField fs "keywords" = none → pc.keywords = Json.arr []) ∧
      (lookupField fs "variations" = none → pc.variations = Json.arr []) ∧
      pc.generatedImages = [] ∧
      (∀ v, lookupField fs "name" = some v → jsTruthy v = true → pc.name = v) := by
  have hcond : ¬ (image = none ∧ title = "" ∧ url = "") := by
    intro hc
    obtain ⟨h1, h2, h3⟩ := hc
    rcases hin with h | h | h <;> contradiction
  refine ⟨{ name := jsOrDefault (lookupField fs "name") (Json.str "")
          , description := jsOrDefault (lookupField fs "description") (Json.str "")
          , category := jsOrDefault (lookupField fs "category") (Json.str "")
          , brand := lookupField fs "brand"
          , sku := lookupField fs "sku"
          , price := jsOrDefault (lookupField fs "price") (Json.num 0)
          , promotionalPrice := lookupField fs "promotionalPrice"
          , keywords := jsOrDefault (lookupField fs "keywords") (Json.arr [])
          , variations := jsOrDefault (lookupField fs "variations") (Json.arr [])
          , weight := lookupField fs "weight"
          , dimensions := lookupField fs "dimensions"
          , promotionalSlogan := jsOrDefault (lookupField fs "promotionalSlogan") (Json.str "")
          , generatedImages := [] },
    ?_, ?_, ?_, ?_, ?_, ?_, ?_, ?_, rfl, ?_⟩
  · simp [generateProductContentV1, hcond, hparse, buildFinalContent, getField]
  · intro habs
    simp [habs, jsOrDefault]
  · intro habs
    simp [habs, jsOrDefault]
  · intro habs
    simp [habs, jsOrDefault]
  · intro habs
    simp [habs, jsOrDefault]
  · intro habs
    simp [habs, jsOrDefault]
  · intro habs
    simp [habs, jsOrDefault]
  · intro habs
    simp [habs, jsOrDefault]
  · intro v hv htr
    simp [hv, jsOrDefault, htr]

/-- Witness for C10 (amended) at the empty-object response. -/
theorem c10_content_defaults_witness :
    ∃ pc, generateProductContentV1 none "tênis" "" (Except.ok "\x7b\x7d") =
        (Except.ok pc, 1) ∧
      (lookupField ([] : List (String × Json)) "name" = none → pc.name = Json.str "") ∧
      (lookupField ([] : List (String × Json)) "description" = none →
        pc.description = Json.str "") ∧
      (lookupField ([] : List (String × Json)) "category" = none →
        pc.category = Json.str "") ∧
      (lookupField ([] : List (String × Json)) "promotionalSlogan" = none →
        pc.promotionalSlogan = Json.str "") ∧
      (lookupField ([] : List (String × Json)) "price" = none → pc.price = Json.num 0) ∧
      (lookupField ([] : List (String × Json)) "keywords" = none →
        pc.keywords = Json.arr []) ∧
      (lookupField ([] : List (String × Json)) "variations" = none →
        pc.variations = Json.arr []) ∧
      pc.generatedImages = [] ∧
      (∀ v, lookupField ([] : List (String × Json)) "name" = some v →
        jsTruthy v = true → pc.name = v) :=
  c10_content_defaults none "tênis" "" "\x7b\x7d" [] (Or.inr (Or.inl (by decide))) rfl

end Spec2Proof
